import Mathlib

/-!
Verification of the snapshot delta-detection core of the planner-delta-tracker
repository (file src/delta.py), shallowly embedded in Lean 4.

A task record is a dictionary with required keys id and title and optional
keys bucket_id, bucket_name, assignees_str, percent_complete, description;
optional keys are modelled as Option-valued fields (absent key = none), so
that the Python lookups t.get(k) and t.get(k, d) become field access and
Option.getD.  A snapshot is a dictionary with optional keys created_at,
plan_id, task_count and tasks.  Machine integers do not occur; Python ints
are modelled as Int.
-/

namespace PlannerDelta

/-- A task record of a snapshot (an enriched task dictionary).  The keys id
and title are required by the detector (it subscripts them directly); all
other diffed keys are optional and read with defaults. -/
structure Task where
  id : String
  title : String
  bucketId : Option String := none
  bucketName : Option String := none
  assigneesStr : Option String := none
  percentComplete : Option Int := none
  description : Option String := none
deriving Repr, DecidableEq

/-- A snapshot dictionary as produced by SnapshotManager.create_snapshot:
keys created_at, plan_id, task_count, tasks, each possibly absent. -/
structure Snapshot where
  createdAt : Option String := none
  planId : Option String := none
  taskCount : Option Int := none
  tasks : Option (List Task) := none
deriving Repr, DecidableEq

/-- The TaskChange record of src/delta.py: a change tag (a plain string in
the source), the task id, title and assignee display string, and optional
old and new values. -/
structure TaskChange where
  changeType : String
  taskId : String
  taskTitle : String
  assignees : String
  oldValue : Option String := none
  newValue : Option String := none
deriving Repr, DecidableEq

/-- Insert a key/value pair into an association list with Python dict
semantics: an existing key keeps its position and gets the new value, a
fresh key is appended at the end. -/
def upsert (m : List (String × Task)) (k : String) (v : Task) :
    List (String × Task) :=
  match m with
  | [] => [(k, v)]
  | e :: rest => if e.1 = k then (k, v) :: rest else e :: upsert rest k v

/-- The id index built in DeltaDetector.__init__ from a task list, one
Python dict comprehension: iterate the list in order and insert each task
under its id (a later duplicate id overwrites the stored value). -/
def buildIndex (ts : List Task) : List (String × Task) :=
  ts.foldl (fun m t => upsert m t.id t) []

/-- Dictionary lookup on the index: the value stored under the key, if the
key is present. -/
def lookupTask (m : List (String × Task)) (k : String) : Option Task :=
  (m.find? (fun e => e.1 == k)).map (fun e => e.2)

/-- The change emitted for a task present only in the current snapshot
(delta.py lines 91-99). -/
def newChange (taskId : String) (t : Task) : TaskChange :=
  { changeType := "new"
    taskId := taskId
    taskTitle := t.title
    assignees := t.assigneesStr.getD "Unassigned"
    newValue := some (t.bucketName.getD "Unknown") }

/-- The change emitted for a task present only in the previous snapshot
(delta.py lines 170-178). -/
def deletedChange (taskId : String) (t : Task) : TaskChange :=
  { changeType := "deleted"
    taskId := taskId
    taskTitle := t.title
    assignees := t.assigneesStr.getD "Unassigned"
    oldValue := some (t.bucketName.getD "Unknown") }

/-- The completion if/elif/elif chain of delta.py lines 126-156: the
percent values of both tasks are read with default 0 and at most one of
completed, reopened, progress_changed is appended.  The source binds the
two values to local variables prev_complete and curr_complete; here they
are inlined. -/
def completionChanges (taskId : String) (previousTask currentTask : Task) :
    List TaskChange :=
  if previousTask.percentComplete.getD 0 < 100 ∧
      currentTask.percentComplete.getD 0 = 100 then
    [{ changeType := "completed"
       taskId := taskId
       taskTitle := currentTask.title
       assignees := currentTask.assigneesStr.getD "Unassigned"
       oldValue := some (toString (previousTask.percentComplete.getD 0) ++ "%")
       newValue := some "100%" }]
  else if previousTask.percentComplete.getD 0 = 100 ∧
      currentTask.percentComplete.getD 0 < 100 then
    [{ changeType := "reopened"
       taskId := taskId
       taskTitle := currentTask.title
       assignees := currentTask.assigneesStr.getD "Unassigned"
       oldValue := some "100%"
       newValue := some (toString (currentTask.percentComplete.getD 0) ++ "%") }]
  else if previousTask.percentComplete.getD 0 ≠
      currentTask.percentComplete.getD 0 then
    [{ changeType := "progress_changed"
       taskId := taskId
       taskTitle := currentTask.title
       assignees := currentTask.assigneesStr.getD "Unassigned"
       oldValue := some (toString (previousTask.percentComplete.getD 0) ++ "%")
       newValue := some (toString (currentTask.percentComplete.getD 0) ++ "%") }]
  else []

/-- The modification-pass emissions for one task id present in both
snapshots (delta.py lines 100-167): the bucket check, the assignee check,
the three-way completion chain and the description check, appended in that
order. -/
def modificationChanges (taskId : String) (previousTask currentTask : Task) :
    List TaskChange :=
  (if currentTask.bucketId ≠ previousTask.bucketId then
    [{ changeType := "bucket_changed"
       taskId := taskId
       taskTitle := currentTask.title
       assignees := currentTask.assigneesStr.getD "Unassigned"
       oldValue := some (previousTask.bucketName.getD "Unknown")
       newValue := some (currentTask.bucketName.getD "Unknown") }]
   else [])
  ++ (if currentTask.assigneesStr ≠ previousTask.assigneesStr then
    [{ changeType := "assignee_changed"
       taskId := taskId
       taskTitle := currentTask.title
       assignees := currentTask.assigneesStr.getD "Unassigned"
       oldValue := some (previousTask.assigneesStr.getD "Unassigned")
       newValue := some (currentTask.assigneesStr.getD "Unassigned") }]
   else [])
  ++ completionChanges taskId previousTask currentTask
  ++ (if previousTask.description.getD "" ≠ currentTask.description.getD "" then
    [{ changeType := "description_changed"
       taskId := taskId
       taskTitle := currentTask.title
       assignees := currentTask.assigneesStr.getD "Unassigned" }]
   else [])

/-- One step of the first loop of detect_changes: a current-index entry
yields a New change when its id is absent from the previous index, and its
modification changes otherwise. -/
def mainPassEntry (previousTasks : List (String × Task)) (e : String × Task) :
    List TaskChange :=
  match lookupTask previousTasks e.1 with
  | none => [newChange e.1 e.2]
  | some prevT => modificationChanges e.1 prevT e.2

/-- The first loop of detect_changes (delta.py lines 90-167), iterating the
current index in order. -/
def mainPass (previousTasks currentTasks : List (String × Task)) :
    List TaskChange :=
  currentTasks.flatMap (mainPassEntry previousTasks)

/-- The second loop of detect_changes (delta.py lines 169-178): a Deleted
change for every previous-index entry whose id is absent from the current
index. -/
def deletedPass (previousTasks currentTasks : List (String × Task)) :
    List TaskChange :=
  previousTasks.flatMap (fun e =>
    if (lookupTask currentTasks e.1).isNone then [deletedChange e.1 e.2]
    else [])

/-- DeltaDetector.detect_changes: build the two id indices (a missing tasks
key defaults to the empty list) and run the two loops. -/
def detectChanges (previous current : Snapshot) : List TaskChange :=
  mainPass (buildIndex (previous.tasks.getD []))
    (buildIndex (current.tasks.getD []))
  ++ deletedPass (buildIndex (previous.tasks.getD []))
    (buildIndex (current.tasks.getD []))

/-- The summary dictionary of DeltaDetector.get_summary. -/
structure Summary where
  totalChanges : Nat
  newTasks : Nat
  deletedTasks : Nat
  bucketChanges : Nat
  assigneeChanges : Nat
  completedTasks : Nat
  reopenedTasks : Nat
  descriptionChanges : Nat
  progressChanges : Nat
  previousSnapshotDate : String
  currentSnapshotDate : String
  previousTaskCount : Nat
  currentTaskCount : Nat
deriving Repr, DecidableEq

/-- DeltaDetector.get_summary (delta.py lines 182-208): per-tag counts over
the change list, snapshot dates read with an Unknown default, and task
counts taken as the lengths of the two id indices. -/
def getSummary (changes : List TaskChange) (previous current : Snapshot) :
    Summary :=
  { totalChanges := changes.length
    newTasks := changes.countP (fun c => c.changeType == "new")
    deletedTasks := changes.countP (fun c => c.changeType == "deleted")
    bucketChanges := changes.countP (fun c => c.changeType == "bucket_changed")
    assigneeChanges := changes.countP (fun c => c.changeType == "assignee_changed")
    completedTasks := changes.countP (fun c => c.changeType == "completed")
    reopenedTasks := changes.countP (fun c => c.changeType == "reopened")
    descriptionChanges := changes.countP (fun c => c.changeType == "description_changed")
    progressChanges := changes.countP (fun c => c.changeType == "progress_changed")
    previousSnapshotDate := previous.createdAt.getD "Unknown"
    currentSnapshotDate := current.createdAt.getD "Unknown"
    previousTaskCount := (buildIndex (previous.tasks.getD [])).length
    currentTaskCount := (buildIndex (current.tasks.getD [])).length }

/-- Python string interpolation of an optional value: None prints as the
four characters None. -/
def optStr (o : Option String) : String :=
  match o with
  | none => "None"
  | some s => s

/-- TaskChange.describe (delta.py lines 32-59): the human-readable line for
one change, dispatching on the change tag. -/
def describeChange (c : TaskChange) : String :=
  if c.changeType == "new" then
    "Neuer Lead: \x27" ++ c.taskTitle ++ "\x27 (Owner: " ++ c.assignees
      ++ ") in Bucket \x27" ++ optStr c.newValue ++ "\x27"
  else if c.changeType == "deleted" then
    "Gelöscht: \x27" ++ c.taskTitle ++ "\x27 (war in Bucket \x27"
      ++ optStr c.oldValue ++ "\x27)"
  else if c.changeType == "bucket_changed" then
    "Verschoben: \x27" ++ c.taskTitle ++ "\x27 (Owner: " ++ c.assignees
      ++ ") von \x27" ++ optStr c.oldValue ++ "\x27 nach \x27"
      ++ optStr c.newValue ++ "\x27"
  else if c.changeType == "assignee_changed" then
    "Owner geändert: \x27" ++ c.taskTitle ++ "\x27 von \x27"
      ++ optStr c.oldValue ++ "\x27 zu \x27" ++ optStr c.newValue ++ "\x27"
  else if c.changeType == "completed" then
    "Abgeschlossen: \x27" ++ c.taskTitle ++ "\x27 (Owner: " ++ c.assignees ++ ")"
  else if c.changeType == "reopened" then
    "Wieder geöffnet: \x27" ++ c.taskTitle ++ "\x27 (Owner: " ++ c.assignees ++ ")"
  else if c.changeType == "description_changed" then
    "Beschreibung geändert: \x27" ++ c.taskTitle ++ "\x27 (Owner: "
      ++ c.assignees ++ ")"
  else if c.changeType == "progress_changed" then
    "Status geändert: \x27" ++ c.taskTitle ++ "\x27 (Owner: " ++ c.assignees
      ++ ") von " ++ optStr c.oldValue ++ " auf " ++ optStr c.newValue
  else
    "Änderung: \x27" ++ c.taskTitle ++ "\x27"

/-- The bullet lines of one formatter section: the changes with the given
tag, in input order, each rendered by describe. -/
def bulletLines (changes : List TaskChange) (tag : String) : List String :=
  (changes.filter (fun c => c.changeType == tag)).map
    (fun c => "  • " ++ describeChange c)

/-- Sixty equals signs, the report frame line. -/
def frameLine : String := String.mk (List.replicate 60 '=')

/-- Forty dashes, the separator under the change count. -/
def dashLine : String := String.mk (List.replicate 40 '-')

/-- format_changes_text (delta.py lines 225-294): the plain-text report,
lines joined by newline. -/
def formatChangesText (changes : List TaskChange) (summary : Summary) :
    String :=
  String.intercalate "\n"
    ([frameLine, "PLANNER DELTA REPORT", frameLine, "",
      "Zeitraum: " ++ summary.previousSnapshotDate ++ " bis "
        ++ summary.currentSnapshotDate,
      "Tasks vorher: " ++ toString summary.previousTaskCount
        ++ ", Tasks jetzt: " ++ toString summary.currentTaskCount,
      ""]
    ++ (if summary.totalChanges = 0 then
          ["Keine Änderungen gefunden."]
        else
          ["Gefundene Änderungen: " ++ toString summary.totalChanges, dashLine]
          ++ (if summary.bucketChanges > 0 then
                ("\nBUCKET-AENDERUNGEN (" ++ toString summary.bucketChanges
                  ++ "):") :: bulletLines changes "bucket_changed"
              else [])
          ++ (if summary.newTasks > 0 then
                ("\nNEUE TASKS (" ++ toString summary.newTasks ++ "):")
                  :: bulletLines changes "new"
              else [])
          ++ (if summary.completedTasks > 0 then
                ("\nABGESCHLOSSEN (" ++ toString summary.completedTasks
                  ++ "):") :: bulletLines changes "completed"
              else [])
          ++ (if summary.assigneeChanges > 0 then
                ("\nOWNER-AENDERUNGEN (" ++ toString summary.assigneeChanges
                  ++ "):") :: bulletLines changes "assignee_changed"
              else [])
          ++ (if summary.deletedTasks > 0 then
                ("\nGELOESCHT (" ++ toString summary.deletedTasks ++ "):")
                  :: bulletLines changes "deleted"
              else [])
          ++ (if summary.reopenedTasks > 0 then
                ("\nWIEDER GEOEFFNET (" ++ toString summary.reopenedTasks
                  ++ "):") :: bulletLines changes "reopened"
              else [])
          ++ (if summary.descriptionChanges > 0 then
                ("\nBESCHREIBUNG GEAENDERT ("
                  ++ toString summary.descriptionChanges ++ "):")
                  :: bulletLines changes "description_changed"
              else [])
          ++ (if summary.progressChanges > 0 then
                ("\nSTATUS GEAENDERT (" ++ toString summary.progressChanges
                  ++ "):") :: bulletLines changes "progress_changed"
              else []))
    ++ ["", frameLine])

/-- The complete set of changes detect_changes can emit for one fixed task
id, as a function of what the two indices hold under that id.  This is a
specification device used to state per-task claims; the theorem
detectChanges_filter_id proves the detector agrees with it. -/
def changesForTask (previousTasks currentTasks : List (String × Task))
    (a : String) : List TaskChange :=
  match lookupTask previousTasks a, lookupTask currentTasks a with
  | none, none => []
  | none, some curT => [newChange a curT]
  | some prevT, some curT => modificationChanges a prevT curT
  | some prevT, none => [deletedChange a prevT]

/-- True exactly on the three completion-transition tags. -/
def isCompletionTag (s : String) : Bool :=
  s == "completed" || s == "reopened" || s == "progress_changed"

/-- The completion behaviour exactly as claim C4 words it: when the two
defaulted percent values differ, exactly one of completed (previous below
100 and current equal 100), reopened (previous equal 100 and current below
100) or progress_changed (otherwise) is emitted, with the stated old and
new values; when they are equal, nothing. -/
def claimedCompletionChanges (taskId : String) (previousTask currentTask : Task) :
    List TaskChange :=
  if previousTask.percentComplete.getD 0 ≠ currentTask.percentComplete.getD 0 then
    (if previousTask.percentComplete.getD 0 < 100 ∧
        currentTask.percentComplete.getD 0 = 100 then
      [{ changeType := "completed"
         taskId := taskId
         taskTitle := currentTask.title
         assignees := currentTask.assigneesStr.getD "Unassigned"
         oldValue := some (toString (previousTask.percentComplete.getD 0) ++ "%")
         newValue := some "100%" }]
    else if previousTask.percentComplete.getD 0 = 100 ∧
        currentTask.percentComplete.getD 0 < 100 then
      [{ changeType := "reopened"
         taskId := taskId
         taskTitle := currentTask.title
         assignees := currentTask.assigneesStr.getD "Unassigned"
         oldValue := some "100%"
         newValue := some (toString (currentTask.percentComplete.getD 0) ++ "%") }]
    else
      [{ changeType := "progress_changed"
         taskId := taskId
         taskTitle := currentTask.title
         assignees := currentTask.assigneesStr.getD "Unassigned"
         oldValue := some (toString (previousTask.percentComplete.getD 0) ++ "%")
         newValue := some (toString (currentTask.percentComplete.getD 0) ++ "%") }])
  else []

/-- The output order exactly as claim C1 words it: all New changes first
(current order), then all modification-pass changes (current order, fixed
per-task sub-order), then all Deleted changes (previous order). -/
def claimedDetectChanges (previous current : Snapshot) : List TaskChange :=
  ((buildIndex (current.tasks.getD [])).flatMap (fun e =>
    if (lookupTask (buildIndex (previous.tasks.getD [])) e.1).isNone then
      [newChange e.1 e.2]
    else []))
  ++ ((buildIndex (current.tasks.getD [])).flatMap (fun e =>
    match lookupTask (buildIndex (previous.tasks.getD [])) e.1 with
    | some prevT => modificationChanges e.1 prevT e.2
    | none => []))
  ++ deletedPass (buildIndex (previous.tasks.getD []))
    (buildIndex (current.tasks.getD []))

/-- The fixed report header lines (delta.py lines 228-234). -/
def reportHeader (summary : Summary) : List String :=
  [frameLine, "PLANNER DELTA REPORT", frameLine, "",
   "Zeitraum: " ++ summary.previousSnapshotDate ++ " bis "
     ++ summary.currentSnapshotDate,
   "Tasks vorher: " ++ toString summary.previousTaskCount
     ++ ", Tasks jetzt: " ++ toString summary.currentTaskCount,
   ""]

/-- One formatter section, as claim C8 words it: omitted entirely when its
count is zero, otherwise a header line showing the count followed by the
bullet lines of that variant. -/
def sectionBlock (count : Nat) (headerOpen : String) (tag : String)
    (changes : List TaskChange) : List String :=
  if count > 0 then
    (headerOpen ++ toString count ++ "):") :: bulletLines changes tag
  else []

/-- The fixed section order claim C8 states: BucketChanged, New, Completed,
AssigneeChanged, Deleted, Reopened, DescriptionChanged, ProgressChanged,
each with its summary count and header text. -/
def claimedSectionOrder (summary : Summary) : List (Nat × String × String) :=
  [(summary.bucketChanges, "\nBUCKET-AENDERUNGEN (", "bucket_changed"),
   (summary.newTasks, "\nNEUE TASKS (", "new"),
   (summary.completedTasks, "\nABGESCHLOSSEN (", "completed"),
   (summary.assigneeChanges, "\nOWNER-AENDERUNGEN (", "assignee_changed"),
   (summary.deletedTasks, "\nGELOESCHT (", "deleted"),
   (summary.reopenedTasks, "\nWIEDER GEOEFFNET (", "reopened"),
   (summary.descriptionChanges, "\nBESCHREIBUNG GEAENDERT (", "description_changed"),
   (summary.progressChanges, "\nSTATUS GEAENDERT (", "progress_changed")]

/-!
### Dynamic model for malformed snapshots

Claim C9 is about snapshots whose structure is malformed, so for it the
index construction of DeltaDetector.__init__ is modelled over dynamically
typed Python values rather than over the typed Snapshot structure: a value
is None, an int, a str, a list or a str-keyed dict, and the Python
operations iteration, subscription and dict.get are partial exactly where
CPython raises.
-/

/-- A dynamically typed Python value (the shapes relevant to snapshots). -/
inductive PyVal where
  | pynone : PyVal
  | pyint (n : Int) : PyVal
  | pystr (s : String) : PyVal
  | pylist (xs : List PyVal) : PyVal
  | pydict (kvs : List (String × PyVal)) : PyVal

/-- Python dict.get with a default: the stored value when the key is
present (even when that value is None), the default otherwise. -/
def pyDictGetD (kvs : List (String × PyVal)) (k : String) (d : PyVal) : PyVal :=
  match kvs.find? (fun e => e.1 == k) with
  | some e => e.2
  | none => d

/-- Python iteration: lists yield their elements, strings their characters
(as one-character strings), dicts their keys; anything else raises
TypeError. -/
def pyIter : PyVal → Except String (List PyVal)
  | .pylist xs => .ok xs
  | .pystr s => .ok (s.data.map (fun ch => .pystr (String.mk [ch])))
  | .pydict kvs => .ok (kvs.map (fun e => PyVal.pystr e.1))
  | _ => .error "TypeError: object is not iterable"

/-- Python subscription with a string key: defined on dicts (KeyError when
the key is absent); TypeError on every other value. -/
def pyGetItem : PyVal → String → Except String PyVal
  | .pydict kvs, k =>
    match kvs.find? (fun e => e.1 == k) with
    | some e => .ok e.2
    | none => .error "KeyError"
  | _, _ => .error "TypeError: value is not subscriptable with a str key"

mutual

/-- Structural equality test on Python values (dict keys are compared with
it during index construction). -/
def pyEq : PyVal → PyVal → Bool
  | .pynone, .pynone => true
  | .pyint a, .pyint b => a == b
  | .pystr a, .pystr b => a == b
  | .pylist xs, .pylist ys => pyEqList xs ys
  | .pydict xs, .pydict ys => pyEqDict xs ys
  | _, _ => false

/-- Elementwise equality on lists of Python values. -/
def pyEqList : List PyVal → List PyVal → Bool
  | [], [] => true
  | x :: xs, y :: ys => pyEq x y && pyEqList xs ys
  | _, _ => false

/-- Entrywise equality on dict entry lists. -/
def pyEqDict : List (String × PyVal) → List (String × PyVal) → Bool
  | [], [] => true
  | x :: xs, y :: ys => (x.1 == y.1) && pyEq x.2 y.2 && pyEqDict xs ys
  | _, _ => false

end

/-- Dict insertion during a comprehension: an existing key keeps its place
and receives the new value, a fresh key is appended. -/
def pyUpsert (m : List (PyVal × PyVal)) (k v : PyVal) : List (PyVal × PyVal) :=
  match m with
  | [] => [(k, v)]
  | e :: rest => if pyEq e.1 k then (k, v) :: rest else e :: pyUpsert rest k v

/-- DeltaDetector.__init__ on a dynamically typed snapshot dict: read the
tasks entry with default empty list, iterate it, and index the elements by
their id entries.  Any TypeError or KeyError of CPython surfaces as an
error value. -/
def pyBuildIndex (snapshotEntries : List (String × PyVal)) :
    Except String (List (PyVal × PyVal)) := do
  let ts ← pyIter (pyDictGetD snapshotEntries "tasks" (.pylist []))
  ts.foldlM (fun m t => do
    let k ← pyGetItem t "id"
    pure (pyUpsert m k t)) []

/-- Whether an Except value is a success. -/
def exceptOk (e : Except String (List (PyVal × PyVal))) : Bool :=
  match e with
  | .ok _ => true
  | .error _ => false

/-! ### Index lemmas -/

/-- The key column of an index. -/
def keysOf (m : List (String × Task)) : List String :=
  m.map (fun e => e.1)

theorem mem_keysOf_upsert (m : List (String × Task)) (k a : String) (v : Task) :
    a ∈ keysOf (upsert m k v) ↔ a ∈ keysOf m ∨ a = k := by
  induction m with
  | nil => simp [upsert, keysOf]
  | cons e rest ih =>
    by_cases h : e.1 = k
    · subst h
      simp [upsert, keysOf]
      tauto
    · simp [upsert, h, keysOf] at ih ⊢
      rw [ih]
      tauto

theorem keysOf_nil : keysOf [] = [] := rfl

theorem keysOf_cons (e : String × Task) (m : List (String × Task)) :
    keysOf (e :: m) = e.1 :: keysOf m := rfl

theorem nodup_keysOf_upsert (m : List (String × Task)) (k : String) (v : Task)
    (h : (keysOf m).Nodup) : (keysOf (upsert m k v)).Nodup := by
  induction m with
  | nil => simp [upsert, keysOf]
  | cons e rest ih =>
    by_cases hk : e.1 = k
    · subst hk
      simpa [upsert, keysOf] using h
    · rw [show upsert (e :: rest) k v = e :: upsert rest k v by
        simp [upsert, hk]]
      rw [keysOf_cons, List.nodup_cons] at h ⊢
      refine ⟨?_, ih h.2⟩
      intro hmem
      rcases (mem_keysOf_upsert rest k e.1 v).1 hmem with hin | heq
      · exact h.1 hin
      · exact hk heq

theorem nodup_keysOf_buildIndex (ts : List Task) :
    (keysOf (buildIndex ts)).Nodup := by
  have main : ∀ (ts : List Task) (m : List (String × Task)),
      (keysOf m).Nodup →
      (keysOf (ts.foldl (fun m t => upsert m t.id t) m)).Nodup := by
    intro ts
    induction ts with
    | nil => intro m h; simpa using h
    | cons t rest ih =>
      intro m h
      exact ih _ (nodup_keysOf_upsert m t.id t h)
  simpa [buildIndex] using main ts [] (by simp [keysOf])

theorem mem_keysOf_buildIndex (ts : List Task) (a : String) :
    a ∈ keysOf (buildIndex ts) ↔ a ∈ ts.map (fun t => t.id) := by
  have main : ∀ (ts : List Task) (m : List (String × Task)),
      a ∈ keysOf (ts.foldl (fun m t => upsert m t.id t) m) ↔
        a ∈ keysOf m ∨ a ∈ ts.map (fun t => t.id) := by
    intro ts
    induction ts with
    | nil => intro m; simp
    | cons t rest ih =>
      intro m
      rw [List.foldl_cons, ih, mem_keysOf_upsert]
      simp
      tauto
  have := main ts []
  simpa [buildIndex, keysOf] using this

theorem lookupTask_nil (a : String) : lookupTask [] a = none := rfl

theorem lookupTask_cons (e : String × Task) (m : List (String × Task))
    (a : String) :
    lookupTask (e :: m) a = if e.1 = a then some e.2 else lookupTask m a := by
  by_cases h : e.1 = a
  · rw [lookupTask, List.find?_cons_of_pos _ (by simpa using h), if_pos h]
    rfl
  · rw [lookupTask, List.find?_cons_of_neg _ (by simpa using h), if_neg h]
    rfl

theorem lookupTask_upsert (m : List (String × Task)) (k a : String) (v : Task) :
    lookupTask (upsert m k v) a = if a = k then some v else lookupTask m a := by
  induction m with
  | nil =>
    rw [show upsert [] k v = [(k, v)] from rfl, lookupTask_cons]
    by_cases h : a = k
    · simp [h]
    · have h2 : ¬k = a := fun hh => h hh.symm
      simp [h, h2]
  | cons e rest ih =>
    by_cases hek : e.1 = k
    · rw [show upsert (e :: rest) k v = (k, v) :: rest by simp [upsert, hek]]
      rw [lookupTask_cons, lookupTask_cons]
      by_cases h : a = k
      · simp [h]
      · have h2 : ¬k = a := fun hh => h hh.symm
        have h3 : ¬e.1 = a := fun hh => h2 (hek ▸ hh)
        simp [h, h2, h3]
    · rw [show upsert (e :: rest) k v = e :: upsert rest k v by
        simp [upsert, hek]]
      rw [lookupTask_cons, ih, lookupTask_cons]
      by_cases hea : e.1 = a
      · have hak : ¬a = k := fun hh => hek (hea.symm ▸ hh)
        simp [hea, hak]
      · simp [hea]

theorem lookupTask_mem_of_nodup (m : List (String × Task)) (e : String × Task) :
    (keysOf m).Nodup → e ∈ m → lookupTask m e.1 = some e.2 := by
  induction m with
  | nil => intro _ h; cases h
  | cons f rest ih =>
    intro hnd hmem
    rw [keysOf_cons, List.nodup_cons] at hnd
    rcases List.mem_cons.1 hmem with rfl | hmem
    · rw [lookupTask_cons, if_pos rfl]
    · have hne : ¬f.1 = e.1 := by
        intro hh
        exact hnd.1 (hh ▸ (List.mem_map.2 ⟨e, hmem, rfl⟩ :
          e.1 ∈ keysOf rest))
      rw [lookupTask_cons, if_neg hne]
      exact ih hnd.2 hmem

theorem getLast?_cons_or {α : Type} (a : α) (l : List α) :
    (a :: l).getLast? =
      match l.getLast? with
      | some u => some u
      | none => some a := by
  cases l with
  | nil => simp
  | cons b l =>
    rw [List.getLast?_cons_cons]
    have hs : ((b :: l).getLast?).isSome := List.getLast?_isSome.mpr (by simp)
    rcases hx : (b :: l).getLast? with _ | u
    · simp [hx] at hs
    · rfl

theorem lookupTask_foldl_last (ts : List Task) :
    ∀ (m : List (String × Task)) (a : String),
      lookupTask (ts.foldl (fun m t => upsert m t.id t) m) a =
        match (ts.filter (fun t => t.id == a)).getLast? with
        | some t => some t
        | none => lookupTask m a := by
  induction ts with
  | nil => intro m a; simp
  | cons t rest ih =>
    intro m a
    rw [List.foldl_cons, ih]
    by_cases h : t.id = a
    · rw [List.filter_cons_of_pos (by simpa using h), getLast?_cons_or]
      rcases hgl : (rest.filter (fun t => t.id == a)).getLast? with _ | u
      · simp only [hgl]
        rw [lookupTask_upsert, if_pos h.symm]
      · simp only [hgl]
    · rw [List.filter_cons_of_neg (by simpa using h), lookupTask_upsert]
      have h2 : ¬a = t.id := fun hh => h hh.symm
      rcases hgl : (rest.filter (fun t => t.id == a)).getLast? with _ | u <;>
        simp only [hgl, if_neg h2]

/-- The id index resolves each id to the latest task with that id in the
input list. -/
theorem lookupTask_buildIndex (ts : List Task) (a : String) :
    lookupTask (buildIndex ts) a = (ts.filter (fun t => t.id == a)).getLast? := by
  rw [buildIndex, lookupTask_foldl_last]
  cases (ts.filter (fun t => t.id == a)).getLast? <;> rfl

/-- The index has as many entries as there are distinct ids in the task
list. -/
theorem length_buildIndex (ts : List Task) :
    (buildIndex ts).length = ((ts.map (fun t => t.id)).dedup).length := by
  have h1 : (keysOf (buildIndex ts)).Nodup := nodup_keysOf_buildIndex ts
  have h2 : ((ts.map (fun t => t.id)).dedup).Nodup := List.nodup_dedup _
  have hsets : (keysOf (buildIndex ts)).toFinset =
      ((ts.map (fun t => t.id)).dedup).toFinset := by
    ext a
    simp only [List.mem_toFinset, List.mem_dedup]
    exact mem_keysOf_buildIndex ts a
  have hl : (buildIndex ts).length = (keysOf (buildIndex ts)).length := by
    simp [keysOf]
  rw [hl, ← List.toFinset_card_of_nodup h1, ← List.toFinset_card_of_nodup h2,
    hsets]

/-! ### Per-task decomposition of the detector output -/

theorem eq_of_mem_ite_singleton {p : Prop} [Decidable p] {x ch : TaskChange}
    (h : ch ∈ if p then [x] else ([] : List TaskChange)) : ch = x := by
  split at h
  · simpa using h
  · cases h

theorem taskId_of_mem_completionChanges {a : String} {p c : Task}
    {ch : TaskChange} (h : ch ∈ completionChanges a p c) : ch.taskId = a := by
  unfold completionChanges at h
  split at h
  · simp at h; subst h; rfl
  · split at h
    · simp at h; subst h; rfl
    · split at h
      · simp at h; subst h; rfl
      · cases h

theorem taskId_of_mem_modificationChanges {a : String} {p c : Task}
    {ch : TaskChange} (h : ch ∈ modificationChanges a p c) : ch.taskId = a := by
  unfold modificationChanges at h
  rcases List.mem_append.1 h with h1 | hdesc
  · rcases List.mem_append.1 h1 with h2 | hcompl
    · rcases List.mem_append.1 h2 with hbucket | hassign
      · rw [eq_of_mem_ite_singleton hbucket]
      · rw [eq_of_mem_ite_singleton hassign]
    · exact taskId_of_mem_completionChanges hcompl
  · rw [eq_of_mem_ite_singleton hdesc]

theorem taskId_of_mem_mainPassEntry {previousTasks : List (String × Task)}
    {e : String × Task} {ch : TaskChange}
    (h : ch ∈ mainPassEntry previousTasks e) : ch.taskId = e.1 := by
  unfold mainPassEntry at h
  rcases hl : lookupTask previousTasks e.1 with _ | prevT
  · rw [hl] at h
    simp at h
    subst h
    rfl
  · rw [hl] at h
    exact taskId_of_mem_modificationChanges h

theorem taskId_of_mem_deletedEntry {currentTasks : List (String × Task)}
    {e : String × Task} {ch : TaskChange}
    (h : ch ∈ if (lookupTask currentTasks e.1).isNone then
        [deletedChange e.1 e.2] else ([] : List TaskChange)) :
    ch.taskId = e.1 := by
  rw [eq_of_mem_ite_singleton h]
  rfl

theorem filter_flatMap_eq_nil (g : String × Task → List TaskChange)
    (a : String) :
    ∀ (idx : List (String × Task)),
      (∀ e ∈ idx, ∀ ch ∈ g e, ch.taskId = e.1) → a ∉ keysOf idx →
      (idx.flatMap g).filter (fun ch => ch.taskId == a) = [] := by
  intro idx
  induction idx with
  | nil => intro _ _; rfl
  | cons e rest ih =>
    intro hg ha
    rw [List.flatMap_cons, List.filter_append]
    have hea : ¬e.1 = a := by
      intro hh
      exact ha (by simp [keysOf_cons, hh])
    have h1 : (g e).filter (fun ch => ch.taskId == a) = [] := by
      rw [List.filter_eq_nil_iff]
      intro ch hch
      simp [hg e (by simp) ch hch, hea]
    have h2 : (rest.flatMap g).filter (fun ch => ch.taskId == a) = [] :=
      ih (fun f hf => hg f (by simp [hf]))
        (fun hmem => ha (by simp [keysOf_cons, hmem]))
    rw [h1, h2]
    rfl

theorem filter_flatMap_find (g : String × Task → List TaskChange)
    (a : String) :
    ∀ (idx : List (String × Task)),
      (∀ e ∈ idx, ∀ ch ∈ g e, ch.taskId = e.1) → (keysOf idx).Nodup →
      (idx.flatMap g).filter (fun ch => ch.taskId == a) =
        match idx.find? (fun e => e.1 == a) with
        | some e => g e
        | none => [] := by
  intro idx
  induction idx with
  | nil => intro _ _; rfl
  | cons e rest ih =>
    intro hg hnd
    rw [keysOf_cons, List.nodup_cons] at hnd
    rw [List.flatMap_cons, List.filter_append]
    by_cases hea : e.1 = a
    · rw [List.find?_cons_of_pos _ (by simpa using hea)]
      have h1 : (g e).filter (fun ch => ch.taskId == a) = g e := by
        rw [List.filter_eq_self]
        intro ch hch
        simp [hg e (by simp) ch hch, hea]
      have h2 : (rest.flatMap g).filter (fun ch => ch.taskId == a) = [] :=
        filter_flatMap_eq_nil g a rest (fun f hf => hg f (by simp [hf]))
          (hea ▸ hnd.1)
      rw [h1, h2, List.append_nil]
    · rw [List.find?_cons_of_neg _ (by simpa using hea)]
      have h1 : (g e).filter (fun ch => ch.taskId == a) = [] := by
        rw [List.filter_eq_nil_iff]
        intro ch hch
        simp [hg e (by simp) ch hch, hea]
      rw [h1]
      rw [ih (fun f hf => hg f (by simp [hf])) hnd.2]
      rfl

/-- The central per-task lemma: filtering the detector output to one task
id yields exactly the changes that changesForTask predicts from the two
index lookups at that id. -/
theorem detectChanges_filter_id (previous current : Snapshot) (a : String) :
    (detectChanges previous current).filter (fun ch => ch.taskId == a) =
      changesForTask (buildIndex (previous.tasks.getD []))
        (buildIndex (current.tasks.getD [])) a := by
  rw [detectChanges, List.filter_append, mainPass, deletedPass]
  rw [filter_flatMap_find (mainPassEntry (buildIndex (previous.tasks.getD [])))
      a (buildIndex (current.tasks.getD []))
      (fun e _ ch hch => taskId_of_mem_mainPassEntry hch)
      (nodup_keysOf_buildIndex _)]
  rw [filter_flatMap_find _ a (buildIndex (previous.tasks.getD []))
      (fun e _ ch hch => taskId_of_mem_deletedEntry hch)
      (nodup_keysOf_buildIndex _)]
  rcases hfc : (buildIndex (current.tasks.getD [])).find?
      (fun e => e.1 == a) with _ | ec <;>
    rcases hfp : (buildIndex (previous.tasks.getD [])).find?
      (fun e => e.1 == a) with _ | ep
  · simp [changesForTask, lookupTask, hfc, hfp]
  · have hpa : ep.1 = a := by simpa using List.find?_some hfp
    simp only [changesForTask, lookupTask, hfc, hfp, Option.map_some,
      Option.map_none, Option.isNone_none, hpa]
    simp
  · have hca : ec.1 = a := by simpa using List.find?_some hfc
    simp only [changesForTask, lookupTask, hfc, hfp, Option.map_some,
      Option.map_none, mainPassEntry, hca]
    simp
  · have hca : ec.1 = a := by simpa using List.find?_some hfc
    have hpa : ep.1 = a := by simpa using List.find?_some hfp
    simp only [changesForTask, lookupTask, hfc, hfp, Option.map_some,
      mainPassEntry, hca, hpa, Option.isNone_some]
    simp

/-! ### Evaluation lemmas for the modification pass -/

theorem modificationChanges_self (a : String) (t : Task) :
    modificationChanges a t t = [] := by
  unfold modificationChanges completionChanges
  have h1 : ¬(t.percentComplete.getD 0 < 100 ∧ t.percentComplete.getD 0 = 100) := by
    omega
  have h2 : ¬(t.percentComplete.getD 0 = 100 ∧ t.percentComplete.getD 0 < 100) := by
    omega
  simp [h1, h2]

theorem filter_completion_modificationChanges (a : String) (p c : Task) :
    (modificationChanges a p c).filter
        (fun ch => isCompletionTag ch.changeType) =
      completionChanges a p c := by
  unfold modificationChanges
  rw [List.filter_append, List.filter_append, List.filter_append]
  have hb : (if c.bucketId ≠ p.bucketId then
      [{ changeType := "bucket_changed", taskId := a, taskTitle := c.title,
         assignees := c.assigneesStr.getD "Unassigned",
         oldValue := some (p.bucketName.getD "Unknown"),
         newValue := some (c.bucketName.getD "Unknown") }]
      else ([] : List TaskChange)).filter
        (fun ch => isCompletionTag ch.changeType) = [] := by
    split <;> rfl
  have ha : (if c.assigneesStr ≠ p.assigneesStr then
      [{ changeType := "assignee_changed", taskId := a, taskTitle := c.title,
         assignees := c.assigneesStr.getD "Unassigned",
         oldValue := some (p.assigneesStr.getD "Unassigned"),
         newValue := some (c.assigneesStr.getD "Unassigned") }]
      else ([] : List TaskChange)).filter
        (fun ch => isCompletionTag ch.changeType) = [] := by
    split <;> rfl
  have hd : (if p.description.getD "" ≠ c.description.getD "" then
      [{ changeType := "description_changed", taskId := a, taskTitle := c.title,
         assignees := c.assigneesStr.getD "Unassigned",
         oldValue := none, newValue := none }]
      else ([] : List TaskChange)).filter
        (fun ch => isCompletionTag ch.changeType) = [] := by
    split <;> rfl
  have hc : (completionChanges a p c).filter
      (fun ch => isCompletionTag ch.changeType) = completionChanges a p c := by
    unfold completionChanges
    split
    · rfl
    · split
      · rfl
      · split <;> rfl
  rw [hb, ha, hc, hd]
  simp

theorem filter_assignee_modificationChanges (a : String) (p c : Task) :
    (modificationChanges a p c).filter
        (fun ch => ch.changeType == "assignee_changed") =
      (if c.assigneesStr ≠ p.assigneesStr then
        [{ changeType := "assignee_changed", taskId := a, taskTitle := c.title,
           assignees := c.assigneesStr.getD "Unassigned",
           oldValue := some (p.assigneesStr.getD "Unassigned"),
           newValue := some (c.assigneesStr.getD "Unassigned") }]
       else []) := by
  unfold modificationChanges
  rw [List.filter_append, List.filter_append, List.filter_append]
  have hb : (if c.bucketId ≠ p.bucketId then
      [{ changeType := "bucket_changed", taskId := a, taskTitle := c.title,
         assignees := c.assigneesStr.getD "Unassigned",
         oldValue := some (p.bucketName.getD "Unknown"),
         newValue := some (c.bucketName.getD "Unknown") }]
      else ([] : List TaskChange)).filter
        (fun ch => ch.changeType == "assignee_changed") = [] := by
    split <;> rfl
  have hcc : (completionChanges a p c).filter
      (fun ch => ch.changeType == "assignee_changed") = [] := by
    unfold completionChanges
    split
    · rfl
    · split
      · rfl
      · split <;> rfl
  have hd : (if p.description.getD "" ≠ c.description.getD "" then
      [{ changeType := "description_changed", taskId := a, taskTitle := c.title,
         assignees := c.assigneesStr.getD "Unassigned",
         oldValue := none, newValue := none }]
      else ([] : List TaskChange)).filter
        (fun ch => ch.changeType == "assignee_changed") = [] := by
    split <;> rfl
  have ha : (if c.assigneesStr ≠ p.assigneesStr then
      [{ changeType := "assignee_changed", taskId := a, taskTitle := c.title,
         assignees := c.assigneesStr.getD "Unassigned",
         oldValue := some (p.assigneesStr.getD "Unassigned"),
         newValue := some (c.assigneesStr.getD "Unassigned") }]
      else ([] : List TaskChange)).filter
        (fun ch => ch.changeType == "assignee_changed") =
      (if c.assigneesStr ≠ p.assigneesStr then
        [{ changeType := "assignee_changed", taskId := a, taskTitle := c.title,
           assignees := c.assigneesStr.getD "Unassigned",
           oldValue := some (p.assigneesStr.getD "Unassigned"),
           newValue := some (c.assigneesStr.getD "Unassigned") }]
       else []) := by
    split <;> rfl
  rw [hb, ha, hcc, hd]
  simp

theorem completionChanges_eq_claimed (a : String) (p c : Task) :
    completionChanges a p c = claimedCompletionChanges a p c := by
  unfold completionChanges claimedCompletionChanges
  split_ifs <;> first | rfl | omega

theorem modificationChanges_desc_only (a : String) (p c : Task)
    (hb : c.bucketId = p.bucketId)
    (has : c.assigneesStr = p.assigneesStr)
    (hpc : c.percentComplete.getD 0 = p.percentComplete.getD 0)
    (hd : p.description.getD "" ≠ c.description.getD "") :
    modificationChanges a p c =
      [{ changeType := "description_changed", taskId := a, taskTitle := c.title,
         assignees := c.assigneesStr.getD "Unassigned",
         oldValue := none, newValue := none }] := by
  unfold modificationChanges completionChanges
  have h1 : ¬(p.percentComplete.getD 0 < 100 ∧ p.percentComplete.getD 0 = 100) := by
    omega
  have h2 : ¬(p.percentComplete.getD 0 = 100 ∧ p.percentComplete.getD 0 < 100) := by
    omega
  simp [hb, has, hpc, h1, h2, hd]

/-- Appending nothing per element flattens to nothing. -/
theorem flatMap_eq_nil_of_forall {α : Type} (l : List α)
    (f : α → List TaskChange) (h : ∀ e ∈ l, f e = []) : l.flatMap f = [] := by
  induction l with
  | nil => rfl
  | cons e rest ih =>
    rw [List.flatMap_cons, h e (by simp), ih (fun x hx => h x (by simp [hx]))]
    rfl

/-! ### Further helper lemmas -/

theorem filter_and_eq (p q : TaskChange → Bool) (l : List TaskChange) :
    l.filter (fun ch => p ch && q ch) =
      (l.filter (fun ch => q ch)).filter (fun ch => p ch) := by
  rw [List.filter_filter]

theorem changeType_of_mem_completionChanges {a : String} {p c : Task}
    {ch : TaskChange} (h : ch ∈ completionChanges a p c) :
    ch.changeType = "completed" ∨ ch.changeType = "reopened" ∨
      ch.changeType = "progress_changed" := by
  unfold completionChanges at h
  split at h
  · simp at h; subst h; left; rfl
  · split at h
    · simp at h; subst h; right; left; rfl
    · split at h
      · simp at h; subst h; right; right; rfl
      · cases h

theorem ne_deleted_of_mem_modificationChanges {a : String} {p c : Task}
    {ch : TaskChange} (h : ch ∈ modificationChanges a p c) :
    ch.changeType ≠ "deleted" := by
  unfold modificationChanges at h
  rcases List.mem_append.1 h with h1 | hdesc
  · rcases List.mem_append.1 h1 with h2 | hcompl
    · rcases List.mem_append.1 h2 with hbucket | hassign
      · rw [eq_of_mem_ite_singleton hbucket]
        exact (by decide : ("bucket_changed" : String) ≠ "deleted")
      · rw [eq_of_mem_ite_singleton hassign]
        exact (by decide : ("assignee_changed" : String) ≠ "deleted")
    · rcases changeType_of_mem_completionChanges hcompl with h | h | h <;>
        rw [h] <;> decide
  · rw [eq_of_mem_ite_singleton hdesc]
    exact (by decide : ("description_changed" : String) ≠ "deleted")

/-! ### Claim theorems -/

/-- Claim C5 (confirmed): comparing any snapshot with itself produces the
empty change sequence. -/
theorem detect_self_empty (S : Snapshot) : detectChanges S S = [] := by
  rw [detectChanges]
  have hlk : ∀ e ∈ buildIndex (S.tasks.getD []),
      lookupTask (buildIndex (S.tasks.getD [])) e.1 = some e.2 :=
    fun e he => lookupTask_mem_of_nodup _ e
      (nodup_keysOf_buildIndex (S.tasks.getD [])) he
  have hmain : mainPass (buildIndex (S.tasks.getD []))
      (buildIndex (S.tasks.getD [])) = [] := by
    rw [mainPass]
    apply flatMap_eq_nil_of_forall
    intro e he
    simp only [mainPassEntry, hlk e he]
    exact modificationChanges_self e.1 e.2
  have hdel : deletedPass (buildIndex (S.tasks.getD []))
      (buildIndex (S.tasks.getD [])) = [] := by
    rw [deletedPass]
    apply flatMap_eq_nil_of_forall
    intro e he
    simp [hlk e he]
  rw [hmain, hdel]
  rfl

/-- Claim C10 (confirmed): duplicate ids within one snapshot raise no
error; the id index maps each id to the record occurring latest in the
task list, and the detector output is a function of the two indices alone,
so every pass uses that record. -/
theorem duplicate_id_last_wins :
    (∀ (ts : List Task) (a : String),
      lookupTask (buildIndex ts) a =
        (ts.filter (fun t => t.id == a)).getLast?)
    ∧ (∀ previous current previous2 current2 : Snapshot,
        buildIndex (previous.tasks.getD []) =
          buildIndex (previous2.tasks.getD []) →
        buildIndex (current.tasks.getD []) =
          buildIndex (current2.tasks.getD []) →
        detectChanges previous current = detectChanges previous2 current2) := by
  refine ⟨lookupTask_buildIndex, ?_⟩
  intro p c p2 c2 hp hc
  rw [detectChanges, detectChanges, hp, hc]

/-- Witness for claim C10, at a snapshot whose task list holds two records
with the same id: the index resolves the id to the second record, and the
detector cannot distinguish the duplicated list from the deduplicated
one. -/
theorem duplicate_id_last_wins_witness :
    lookupTask (buildIndex [{ id := "x", title := "T1" },
        { id := "x", title := "T2" }]) "x" =
      some { id := "x", title := "T2" }
    ∧ detectChanges
        { tasks := some [{ id := "x", title := "T1" },
            { id := "x", title := "T2" }] }
        { tasks := some [] } =
      detectChanges { tasks := some [{ id := "x", title := "T2" }] }
        { tasks := some [] } := by
  constructor
  · exact (duplicate_id_last_wins.1 [{ id := "x", title := "T1" },
      { id := "x", title := "T2" }] "x").trans (by decide)
  · exact duplicate_id_last_wins.2
      { tasks := some [{ id := "x", title := "T1" },
          { id := "x", title := "T2" }] }
      { tasks := some [] }
      { tasks := some [{ id := "x", title := "T2" }] }
      { tasks := some [] }
      (by decide) (by decide)

/-- Counterexample to claim C1 as stated: with a modified task listed
before a fresh task in the current snapshot, the detector emits the
BucketChanged change before the New change, so New changes do not all come
first. -/
theorem detect_order_cex :
    detectChanges
        { tasks := some [{ id := "a", title := "A", bucketId := some "b1", bucketName := some "B1" }] }
        { tasks := some [{ id := "a", title := "A", bucketId := some "b2", bucketName := some "B2" },
          { id := "b", title := "B" }] } ≠
      claimedDetectChanges
        { tasks := some [{ id := "a", title := "A", bucketId := some "b1", bucketName := some "B1" }] }
        { tasks := some [{ id := "a", title := "A", bucketId := some "b2", bucketName := some "B2" },
          { id := "b", title := "B" }] } := by
  decide

/-- Claim C1 (amended): the detector output is the single current-order
pass, in which each current task contributes either its New change or its
modification changes in the fixed sub-order bucket, assignee, completion,
description, followed by all Deleted changes in previous order; New and
modification changes are interleaved per task, not grouped, and only the
Deleted block is guaranteed to come last. -/
theorem detectChanges_pass_structure (previous current : Snapshot) :
    detectChanges previous current =
      mainPass (buildIndex (previous.tasks.getD []))
        (buildIndex (current.tasks.getD []))
      ++ deletedPass (buildIndex (previous.tasks.getD []))
        (buildIndex (current.tasks.getD []))
    ∧ mainPass (buildIndex (previous.tasks.getD []))
        (buildIndex (current.tasks.getD [])) =
      (buildIndex (current.tasks.getD [])).flatMap
        (mainPassEntry (buildIndex (previous.tasks.getD [])))
    ∧ (∀ ch ∈ mainPass (buildIndex (previous.tasks.getD []))
        (buildIndex (current.tasks.getD [])), ch.changeType ≠ "deleted")
    ∧ (∀ ch ∈ deletedPass (buildIndex (previous.tasks.getD []))
        (buildIndex (current.tasks.getD [])), ch.changeType = "deleted") := by
  refine ⟨rfl, rfl, ?_, ?_⟩
  · intro ch hch
    rw [mainPass] at hch
    rcases List.mem_flatMap.1 hch with ⟨e, _, hmem⟩
    unfold mainPassEntry at hmem
    rcases hl : lookupTask (buildIndex (previous.tasks.getD [])) e.1 with _ | pT
    · rw [hl] at hmem
      simp at hmem
      subst hmem
      exact (by decide : ("new" : String) ≠ "deleted")
    · rw [hl] at hmem
      exact ne_deleted_of_mem_modificationChanges hmem
  · intro ch hch
    rw [deletedPass] at hch
    rcases List.mem_flatMap.1 hch with ⟨e, _, hmem⟩
    rw [eq_of_mem_ite_singleton hmem]
    rfl

/-- Witness for the amended claim C1 at a concrete snapshot pair. -/
theorem detectChanges_pass_structure_witness :
    detectChanges { tasks := some [{ id := "a", title := "A" }] }
        { tasks := some [{ id := "b", title := "B" }] } =
      mainPass (buildIndex [{ id := "a", title := "A" }])
        (buildIndex [{ id := "b", title := "B" }])
      ++ deletedPass (buildIndex [{ id := "a", title := "A" }])
        (buildIndex [{ id := "b", title := "B" }]) := by
  exact (detectChanges_pass_structure
    { tasks := some [{ id := "a", title := "A" }] }
    { tasks := some [{ id := "b", title := "B" }] }).1

/-- Counterexample to claim C3 as stated: previous task with the assignee
field absent, current task with the field explicitly the string Unassigned.
Defaulted at the point of comparison both sides read Unassigned, so the
claim forbids a change, yet the detector compares the raw fields and emits
an AssigneeChanged change. -/
theorem assignee_default_cex :
    (({ id := "t", title := "T" } : Task).assigneesStr.getD "Unassigned" =
      ({ id := "t", title := "T", assigneesStr := some "Unassigned" } : Task).assigneesStr.getD "Unassigned")
    ∧ (detectChanges { tasks := some [{ id := "t", title := "T" }] }
        { tasks := some [{ id := "t", title := "T", assigneesStr := some "Unassigned" }] }).countP
        (fun ch => ch.changeType == "assignee_changed") = 1 := by
  decide

/-- Claim C3 (amended): for a task id present in both snapshots, an
AssigneeChanged change is emitted if and only if the raw optional assignee
display strings differ, with a missing field compared as absent rather
than defaulted; the Unassigned default is applied only to the values
carried in the emitted change record. -/
theorem assignee_change_raw_compare (previous current : Snapshot)
    (a : String) (prevT curT : Task)
    (hp : lookupTask (buildIndex (previous.tasks.getD [])) a = some prevT)
    (hc : lookupTask (buildIndex (current.tasks.getD [])) a = some curT) :
    (detectChanges previous current).filter
        (fun ch => ch.changeType == "assignee_changed" && ch.taskId == a) =
      (if curT.assigneesStr ≠ prevT.assigneesStr then
        [{ changeType := "assignee_changed", taskId := a,
           taskTitle := curT.title,
           assignees := curT.assigneesStr.getD "Unassigned",
           oldValue := some (prevT.assigneesStr.getD "Unassigned"),
           newValue := some (curT.assigneesStr.getD "Unassigned") }]
       else []) := by
  rw [filter_and_eq (fun ch => ch.changeType == "assignee_changed")
    (fun ch => ch.taskId == a), detectChanges_filter_id]
  simp only [changesForTask, hp, hc]
  exact filter_assignee_modificationChanges a prevT curT

/-- Witness for the amended claim C3 at a concrete snapshot pair with a
changed assignee string. -/
theorem assignee_change_raw_compare_witness :
    (detectChanges { tasks := some [{ id := "t", title := "T", assigneesStr := some "A" }] }
        { tasks := some [{ id := "t", title := "T", assigneesStr := some "B" }] }).filter
        (fun ch => ch.changeType == "assignee_changed" && ch.taskId == "t") =
      [{ changeType := "assignee_changed", taskId := "t", taskTitle := "T",
         assignees := "B", oldValue := some "A", newValue := some "B" }] := by
  exact (assignee_change_raw_compare
    { tasks := some [{ id := "t", title := "T", assigneesStr := some "A" }] }
    { tasks := some [{ id := "t", title := "T", assigneesStr := some "B" }] }
    "t" { id := "t", title := "T", assigneesStr := some "A" }
    { id := "t", title := "T", assigneesStr := some "B" }
    (by decide) (by decide)).trans (by decide)

/-- Claim C4 (confirmed): for a task id present in both snapshots, the
completion-transition changes emitted for it are exactly the three-way
exclusive case split of the claim on the defaulted percent values;
in particular exactly one such change appears when the values differ and
none when they are equal. -/
theorem completion_three_way (previous current : Snapshot) (a : String)
    (prevT curT : Task)
    (hp : lookupTask (buildIndex (previous.tasks.getD [])) a = some prevT)
    (hc : lookupTask (buildIndex (current.tasks.getD [])) a = some curT) :
    (detectChanges previous current).filter
        (fun ch => isCompletionTag ch.changeType && ch.taskId == a) =
      claimedCompletionChanges a prevT curT
    ∧ (prevT.percentComplete.getD 0 ≠ curT.percentComplete.getD 0 →
        ((detectChanges previous current).filter
          (fun ch => isCompletionTag ch.changeType && ch.taskId == a)).length = 1)
    ∧ (prevT.percentComplete.getD 0 = curT.percentComplete.getD 0 →
        (detectChanges previous current).filter
          (fun ch => isCompletionTag ch.changeType && ch.taskId == a) = []) := by
  have hmain : (detectChanges previous current).filter
      (fun ch => isCompletionTag ch.changeType && ch.taskId == a) =
      claimedCompletionChanges a prevT curT := by
    rw [filter_and_eq (fun ch => isCompletionTag ch.changeType)
      (fun ch => ch.taskId == a), detectChanges_filter_id]
    simp only [changesForTask, hp, hc]
    rw [filter_completion_modificationChanges, completionChanges_eq_claimed]
  refine ⟨hmain, ?_, ?_⟩
  · intro hne
    rw [hmain]
    unfold claimedCompletionChanges
    rw [if_pos hne]
    split
    · rfl
    · split <;> rfl
  · intro heq
    rw [hmain]
    unfold claimedCompletionChanges
    rw [if_neg (fun hh => hh heq)]

/-- Witness for claim C4 at the spec scenario with percent 80 previously
and 100 currently: exactly one completion-transition change, a completed
change with old value 80 percent and new value 100 percent. -/
theorem completion_three_way_witness :
    (detectChanges { tasks := some [{ id := "3", title := "L", percentComplete := some 80 }] }
        { tasks := some [{ id := "3", title := "L", percentComplete := some 100 }] }).filter
        (fun ch => isCompletionTag ch.changeType && ch.taskId == "3") =
      [{ changeType := "completed", taskId := "3", taskTitle := "L",
         assignees := "Unassigned", oldValue := some "80%",
         newValue := some "100%" }] := by
  exact ((completion_three_way
    { tasks := some [{ id := "3", title := "L", percentComplete := some 80 }] }
    { tasks := some [{ id := "3", title := "L", percentComplete := some 100 }] }
    "3" { id := "3", title := "L", percentComplete := some 80 }
    { id := "3", title := "L", percentComplete := some 100 }
    (by decide) (by decide)).1).trans (by decide)

/-- Claim C6 (confirmed): a task id present only in the current snapshot
yields exactly one New change, carrying the defaulted current bucket name
as its new value, and no Deleted change; a task id present only in the
previous snapshot yields exactly one Deleted change, carrying the
defaulted previous bucket name as its old value, and no New change. -/
theorem new_deleted_symmetry (previous current : Snapshot) (a : String) :
    (∀ curT : Task,
      lookupTask (buildIndex (current.tasks.getD [])) a = some curT →
      lookupTask (buildIndex (previous.tasks.getD [])) a = none →
      (detectChanges previous current).filter
          (fun ch => ch.changeType == "new" && ch.taskId == a) =
        [{ changeType := "new", taskId := a, taskTitle := curT.title,
           assignees := curT.assigneesStr.getD "Unassigned",
           oldValue := none,
           newValue := some (curT.bucketName.getD "Unknown") }]
      ∧ (detectChanges previous current).filter
          (fun ch => ch.changeType == "deleted" && ch.taskId == a) = [])
    ∧ (∀ prevT : Task,
      lookupTask (buildIndex (previous.tasks.getD [])) a = some prevT →
      lookupTask (buildIndex (current.tasks.getD [])) a = none →
      (detectChanges previous current).filter
          (fun ch => ch.changeType == "deleted" && ch.taskId == a) =
        [{ changeType := "deleted", taskId := a, taskTitle := prevT.title,
           assignees := prevT.assigneesStr.getD "Unassigned",
           oldValue := some (prevT.bucketName.getD "Unknown"),
           newValue := none }]
      ∧ (detectChanges previous current).filter
          (fun ch => ch.changeType == "new" && ch.taskId == a) = []) := by
  have hnewdel : (("new" : String) == "deleted") = false := by decide
  have hdelnew : (("deleted" : String) == "new") = false := by decide
  constructor
  · intro curT hc hp
    constructor
    · rw [filter_and_eq (fun ch => ch.changeType == "new")
        (fun ch => ch.taskId == a), detectChanges_filter_id]
      simp only [changesForTask, hp, hc]
      simp [newChange]
    · rw [filter_and_eq (fun ch => ch.changeType == "deleted")
        (fun ch => ch.taskId == a), detectChanges_filter_id]
      simp only [changesForTask, hp, hc]
      simp [newChange, hdelnew]
  · intro prevT hp hc
    constructor
    · rw [filter_and_eq (fun ch => ch.changeType == "deleted")
        (fun ch => ch.taskId == a), detectChanges_filter_id]
      simp only [changesForTask, hp, hc]
      simp [deletedChange]
    · rw [filter_and_eq (fun ch => ch.changeType == "new")
        (fun ch => ch.taskId == a), detectChanges_filter_id]
      simp only [changesForTask, hp, hc]
      simp [deletedChange, hnewdel]

/-- Witness for claim C6: one current-only task and one previous-only task
at concrete snapshots. -/
theorem new_deleted_symmetry_witness :
    (detectChanges { tasks := some [{ id := "p", title := "P", bucketName := some "Alt" }] }
        { tasks := some [{ id := "c", title := "C" }] }).filter
        (fun ch => ch.changeType == "new" && ch.taskId == "c") =
      [{ changeType := "new", taskId := "c", taskTitle := "C",
         assignees := "Unassigned", oldValue := none,
         newValue := some "Unknown" }]
    ∧ (detectChanges { tasks := some [{ id := "p", title := "P", bucketName := some "Alt" }] }
        { tasks := some [{ id := "c", title := "C" }] }).filter
        (fun ch => ch.changeType == "deleted" && ch.taskId == "p") =
      [{ changeType := "deleted", taskId := "p", taskTitle := "P",
         assignees := "Unassigned", oldValue := some "Alt",
         newValue := none }] := by
  constructor
  · exact (((new_deleted_symmetry
      { tasks := some [{ id := "p", title := "P", bucketName := some "Alt" }] }
      { tasks := some [{ id := "c", title := "C" }] } "c").1
      { id := "c", title := "C" } (by decide) (by decide)).1).trans (by decide)
  · exact (((new_deleted_symmetry
      { tasks := some [{ id := "p", title := "P", bucketName := some "Alt" }] }
      { tasks := some [{ id := "c", title := "C" }] } "p").2
      { id := "p", title := "P", bucketName := some "Alt" }
      (by decide) (by decide)).1).trans (by decide)

/-- Claim C7 (confirmed): for a task id present in both snapshots whose
compared fields all agree except the defaulted description, the detector
emits exactly one change for that id, a DescriptionChanged change carrying
neither an old nor a new value. -/
theorem description_only_single_change (previous current : Snapshot)
    (a : String) (prevT curT : Task)
    (hp : lookupTask (buildIndex (previous.tasks.getD [])) a = some prevT)
    (hc : lookupTask (buildIndex (current.tasks.getD [])) a = some curT)
    (hb : curT.bucketId = prevT.bucketId)
    (has : curT.assigneesStr = prevT.assigneesStr)
    (hpc : curT.percentComplete.getD 0 = prevT.percentComplete.getD 0)
    (hd : prevT.description.getD "" ≠ curT.description.getD "") :
    (detectChanges previous current).filter (fun ch => ch.taskId == a) =
      [{ changeType := "description_changed", taskId := a,
         taskTitle := curT.title,
         assignees := curT.assigneesStr.getD "Unassigned",
         oldValue := none, newValue := none }] := by
  rw [detectChanges_filter_id]
  simp only [changesForTask, hp, hc]
  exact modificationChanges_desc_only a prevT curT hb has hpc hd

/-- Witness for claim C7 at a concrete snapshot pair differing only in the
description. -/
theorem description_only_single_change_witness :
    (detectChanges { tasks := some [{ id := "t", title := "T", description := some "old" }] }
        { tasks := some [{ id := "t", title := "T", description := some "new" }] }).filter
        (fun ch => ch.taskId == "t") =
      [{ changeType := "description_changed", taskId := "t", taskTitle := "T",
         assignees := "Unassigned", oldValue := none, newValue := none }] := by
  exact (description_only_single_change
    { tasks := some [{ id := "t", title := "T", description := some "old" }] }
    { tasks := some [{ id := "t", title := "T", description := some "new" }] }
    "t" { id := "t", title := "T", description := some "old" }
    { id := "t", title := "T", description := some "new" }
    (by decide) (by decide) (by decide) (by decide) (by decide)
    (by decide)).trans (by decide)

/-- Counterexample to claim C2 as stated: a snapshot that stores the task
count 7 while its task list holds two records sharing one id.  The summary
reports 1 — the size of the id index — which is neither the stored count
nor the list length, so the task counts are not copied verbatim from the
input snapshot (and, being computed numbers, are never the sentinel
Unknown). -/
theorem getSummary_count_cex :
    (getSummary []
      { taskCount := some 7, tasks := some [{ id := "x", title := "T1" }, { id := "x", title := "T2" }] }
      { taskCount := some 7, tasks := some [{ id := "x", title := "T1" }, { id := "x", title := "T2" }] }).previousTaskCount = 1
    ∧ ({ taskCount := some 7, tasks := some [{ id := "x", title := "T1" }, { id := "x", title := "T2" }] } : Snapshot).taskCount = some 7
    ∧ (({ taskCount := some 7, tasks := some [{ id := "x", title := "T1" }, { id := "x", title := "T2" }] } : Snapshot).tasks.getD []).length = 2 := by
  decide

/-- Claim C2 (amended): the summary copies the two snapshot timestamps
verbatim with the sentinel Unknown for an absent timestamp, while the two
task counts are computed, not copied: each is the number of distinct task
ids in that snapshot task list (the size of the id index, zero when the
tasks field is absent) and is never a sentinel. -/
theorem getSummary_metadata (changes : List TaskChange)
    (previous current : Snapshot) :
    (getSummary changes previous current).previousSnapshotDate =
      previous.createdAt.getD "Unknown"
    ∧ (getSummary changes previous current).currentSnapshotDate =
      current.createdAt.getD "Unknown"
    ∧ (getSummary changes previous current).previousTaskCount =
      ((previous.tasks.getD []).map (fun t => t.id)).dedup.length
    ∧ (getSummary changes previous current).currentTaskCount =
      ((current.tasks.getD []).map (fun t => t.id)).dedup.length := by
  refine ⟨rfl, rfl, ?_, ?_⟩
  · exact length_buildIndex _
  · exact length_buildIndex _

/-- Claim C8 (confirmed): the plain-text formatter consists of the fixed
header, then either the single no-changes line when the total is zero or
the change-count line followed by the eight variant sections in the fixed
order BucketChanged, New, Completed, AssigneeChanged, Deleted, Reopened,
DescriptionChanged, ProgressChanged, where each section shows its summary
count in its header line and a zero-count section is omitted entirely, and
the closing frame. -/
theorem format_sections_fixed_order (changes : List TaskChange)
    (summary : Summary) :
    formatChangesText changes summary =
      String.intercalate "\n"
        (reportHeader summary
        ++ (if summary.totalChanges = 0 then
              ["Keine Änderungen gefunden."]
            else
              ["Gefundene Änderungen: " ++ toString summary.totalChanges,
               dashLine]
              ++ (claimedSectionOrder summary).flatMap
                  (fun s => sectionBlock s.1 s.2.1 s.2.2 changes))
        ++ ["", frameLine]) := by
  simp only [formatChangesText, reportHeader, claimedSectionOrder,
    sectionBlock, List.flatMap_cons, List.flatMap_nil, List.append_nil,
    List.append_assoc]

/-- Counterexample to claim C9 as stated: a snapshot whose tasks entry is
the integer 42.  The claim says a mistyped tasks field is treated as an
empty task list and never raises; the index construction of the detector
iterates the value and raises a TypeError instead. -/
theorem mistyped_tasks_cex :
    exceptOk (pyBuildIndex [("tasks", PyVal.pyint 42)]) = false := by
  rfl

/-- Claim C9 (amended): a snapshot from which the tasks key is absent is
treated as having an empty task list and its index construction succeeds,
and on the typed side a snapshot with no tasks field behaves exactly like
one with an explicitly empty task list; missing optional task fields are
always defaulted and never error.  A mistyped tasks value is not uniformly
recovered, however: the value is simply iterated, so an iterable mistyped
value such as an empty string or an empty dict still yields an empty index
without error, while a non-iterable value such as an integer makes the
index construction raise a TypeError. -/
theorem missing_tasks_defaults :
    (∀ entries : List (String × PyVal),
      entries.find? (fun e => e.1 == "tasks") = none →
      pyBuildIndex entries = .ok [])
    ∧ pyBuildIndex [("tasks", PyVal.pystr "")] = .ok []
    ∧ pyBuildIndex [("tasks", PyVal.pydict [])] = .ok []
    ∧ (∀ previous current : Snapshot, previous.tasks = none →
      detectChanges previous current =
        detectChanges
          { createdAt := previous.createdAt, planId := previous.planId,
            taskCount := previous.taskCount, tasks := some [] } current) := by
  refine ⟨?_, rfl, rfl, ?_⟩
  · intro entries h
    simp only [pyBuildIndex, pyDictGetD, h, pyIter]
    rfl
  · intro p c h
    rw [detectChanges, detectChanges, h]
    rfl

/-- Witness for the amended claim C9: a snapshot dict with only a
created_at entry indexes to the empty mapping, and a typed snapshot
without tasks diffs exactly like one with an empty task list. -/
theorem missing_tasks_defaults_witness :
    pyBuildIndex [("created_at", PyVal.pystr "2024-01-01")] = .ok []
    ∧ detectChanges { createdAt := some "x" }
        { tasks := some [{ id := "a", title := "A" }] } =
      detectChanges { createdAt := some "x", tasks := some [] }
        { tasks := some [{ id := "a", title := "A" }] } := by
  constructor
  · exact missing_tasks_defaults.1 [("created_at", PyVal.pystr "2024-01-01")]
      (by rfl)
  · exact missing_tasks_defaults.2.2.2 { createdAt := some "x" }
      { tasks := some [{ id := "a", title := "A" }] } rfl

end PlannerDelta
